import Mathlib

/-!
Verification of the BSON serde decoding bridge (src/src/decoder/serde.rs).

The development shallowly embeds the decoder: the dynamic `Bson` value tree,
the `Decoder` (Value Cursor) with its single pending slot, the `SeqDecoder`
(Sequence Cursor), the `MapDecoder` (Map Cursor), the `VariantDecoder`
(Union Cursor), and the visitor callback surface.  Visitors are records of
callbacks; stateful Rust code (`&mut` cursors) becomes explicit state
passing, and fallible code returns an `Outcome` that distinguishes
structured decode errors from Rust panics (`unwrap` on `None`,
`unimplemented!`).
-/

/-- The dynamic value tree (the external `Bson` enum of bson.rs, restricted to
the variants the decoder dispatches on).  The `f64` payload of
`FloatingPoint` is carried as its raw bit pattern (a `Nat`): the decoder
never computes with it, only moves it.  `ObjectId` stands for the
non-primitive ("extended type") variants that fall into the `_` arm of
`Decoder::visit` and are converted through `to_extended_document`. -/
inductive Bson where
  | FloatingPoint (bits : Nat)
  | String (s : String)
  | Array (elems : List Bson)
  | Document (doc : List (String × Bson))
  | Boolean (b : Bool)
  | Null
  | I32 (v : Int)
  | I64 (v : Int)
  | ObjectId (oid : String)

/-- Modelled from the spec: the error taxonomy of section 7 (the repository's
`decoder/error.rs` is not under src/; serde.rs raises errors through
`de::Error::end_of_stream`, `de::Error::syntax`, `de::Error::length_mismatch`
and matches on `DecoderError::UnknownField`). -/
inductive DecoderError where
  | EndOfStream
  | UnknownField (name : String)
  | LengthMismatch (remaining : Nat)
  | SyntaxError (msg : String)
deriving DecidableEq

/-- Modelled from the spec: `ExpectedEnum` is the taxonomy name for the error
the code raises as `de::Error::syntax("expected an enum")` on an enum-shape
request against a non-Document pending value. -/
def ExpectedEnum : DecoderError := .SyntaxError ("expected an enum")

/-- Modelled from the spec: `ExpectedVariantName` is the taxonomy name for
`de::Error::syntax("expected a variant name")`, raised when the enum-shape
document has no entry. -/
def ExpectedVariantName : DecoderError := .SyntaxError ("expected a variant name")

/-- Modelled from the spec: `ExpectedSingleKeyMap` is the taxonomy name for
`de::Error::syntax("expected map")`, raised when the enum-shape document has
two or more entries. -/
def ExpectedSingleKeyMap : DecoderError := .SyntaxError ("expected map")

/-- Result of running a piece of decoder code: a value, a structured
`DecoderError`, or a Rust panic (e.g. `Option::unwrap` on `None`,
`unimplemented!`). -/
inductive Outcome (α : Type) where
  | ok (val : α)
  | err (e : DecoderError)
  | panic (msg : String)
deriving DecidableEq

/-- The ordered document type (`ordered.rs`'s `OrderedDocument`): an
insertion-ordered list of key/value pairs. -/
abbrev OrderedDocument := List (String × Bson)

/-- The Value Cursor: `struct Decoder { value: Option<Bson> }`. -/
structure Decoder where
  value : Option Bson

/-- The Sequence Cursor: `struct SeqDecoder { de, iter, len }`.  The
`vec::IntoIter<Bson>` iterator is embedded as the list of elements not yet
yielded. -/
structure SeqDecoder where
  de : Decoder
  iter : List Bson
  len : Nat

/-- The Map Cursor: `struct MapDecoder { de, iter, value, len }`.  The
`OrderedDocumentIntoIterator` is embedded as the insertion-ordered list of
pairs not yet yielded; `value` is the one-slot buffer between `visit_key`
and `visit_value`. -/
structure MapDecoder where
  de : Decoder
  iter : List (String × Bson)
  value : Option Bson
  len : Nat

/-- The Union Cursor: `struct VariantDecoder { de, val, variant }`. -/
structure VariantDecoder where
  de : Decoder
  val : Option Bson
  variant : Option Bson

/-- The `serde::de::Visitor` callback surface, specialised to the
deserializers of this file (the only `SeqVisitor` ever handed to
`visit_seq` is a `SeqDecoder`, and the only `MapVisitor` handed to
`visit_map` is a `MapDecoder`).  Callbacks that receive a borrowed cursor
return its final state alongside the result. -/
structure Visitor (α : Type) where
  visit_bool : Bool → Outcome α
  visit_i32 : Int → Outcome α
  visit_i64 : Int → Outcome α
  visit_f64 : Nat → Outcome α
  visit_string : String → Outcome α
  visit_unit : Outcome α
  visit_none : Outcome α
  visit_some : Decoder → Outcome α × Decoder
  visit_newtype_struct : Decoder → Outcome α × Decoder
  visit_seq : SeqDecoder → Outcome α × SeqDecoder
  visit_map : MapDecoder → Outcome α × MapDecoder

/-- The `serde::de::EnumVisitor` surface: its single `visit` callback
receives the Union Cursor. -/
structure EnumVisitor (α : Type) where
  visit : VariantDecoder → Outcome α × VariantDecoder

/-- Modelled from the spec: `Bson::to_extended_document` (bson.rs, not under
src/) — the extended representation of a non-primitive value, e.g.
`ObjectId` becomes the single-entry document with key `$oid`. -/
def Bson.to_extended_document : Bson → OrderedDocument
  | .ObjectId oid => [("$oid", .String oid)]
  | .Document doc => doc
  | _ => []

/-- Modelled from the spec: `Bson::from_extended_document` (bson.rs, not
under src/) — a document whose keys match an extended-type encoding (here
the `$oid` single-entry form) is reinterpreted as the corresponding
extended type; any other document stays a plain `Document`. -/
def Bson.from_extended_document (doc : OrderedDocument) : Bson :=
  match doc with
  | [(k, .String s)] => if k = "$oid" then .ObjectId s else .Document doc
  | _ => .Document doc

/-- `Deserializer::visit` for `Decoder` (the root Value Cursor dispatch):
take the pending value (`EndOfStream` if the slot is already empty) and
route on its tag; `Array`/`Document` build a Sequence/Map Cursor whose `de`
field is the now-empty Value Cursor, and any other (extended) variant is
converted with `to_extended_document` first. -/
def Decoder.visit (d : Decoder) (v : Visitor α) : Outcome α × Decoder :=
  match d.value with
  | none => (.err .EndOfStream, d)
  | some value =>
    let d' : Decoder := ⟨none⟩
    match value with
    | .FloatingPoint bits => (v.visit_f64 bits, d')
    | .String s => (v.visit_string s, d')
    | .Array elems =>
        let len := elems.length
        let (r, sd) := v.visit_seq ⟨d', elems, len⟩
        (r, sd.de)
    | .Document doc =>
        let len := doc.length
        let (r, md) := v.visit_map ⟨d', doc, none, len⟩
        (r, md.de)
    | .Boolean b => (v.visit_bool b, d')
    | .Null => (v.visit_unit, d')
    | .I32 n => (v.visit_i32 n, d')
    | .I64 n => (v.visit_i64 n, d')
    | .ObjectId oid =>
        let doc := (Bson.ObjectId oid).to_extended_document
        let len := doc.length
        let (r, md) := v.visit_map ⟨d', doc, none, len⟩
        (r, md.de)

/-- `Deserializer::visit_option` for `Decoder`: the slot is only inspected
(`match self.value` binds nothing by value, so nothing is moved out): the
`Null` branch calls `visit_none` leaving the slot untouched, the `Some(_)`
branch hands the still-full cursor to `visit_some`, and an empty slot is
`EndOfStream`. -/
def Decoder.visit_option (d : Decoder) (v : Visitor α) : Outcome α × Decoder :=
  match d.value with
  | some .Null => (v.visit_none, d)
  | some _ => v.visit_some d
  | none => (.err .EndOfStream, d)

/-- `Deserializer::visit_enum` for `Decoder`: take the pending value
(emptying the slot even when the tag check then fails); a non-Document is
`ExpectedEnum`, an empty slot `EndOfStream`; iterate the document: no entry
is `ExpectedVariantName`, a second entry is `ExpectedSingleKeyMap`, and
exactly one entry builds the Union Cursor and calls the enum visitor. -/
def Decoder.visit_enum (d : Decoder) (v : EnumVisitor α) : Outcome α × Decoder :=
  match d.value with
  | some (.Document doc) =>
      let d' : Decoder := ⟨none⟩
      match doc with
      | [] => (.err ExpectedVariantName, d')
      | (variant, value) :: rest =>
        match rest with
        | _ :: _ => (.err ExpectedSingleKeyMap, d')
        | [] =>
            let (r, vd) := v.visit ⟨d', some value, some (.String variant)⟩
            (r, vd.de)
  | some _ => (.err ExpectedEnum, ⟨none⟩)
  | none => (.err .EndOfStream, d)

/-- `Deserializer::visit_newtype_struct` for `Decoder`: pass the cursor
through unchanged to the visitor's newtype callback. -/
def Decoder.visit_newtype_struct (d : Decoder) (v : Visitor α) : Outcome α × Decoder :=
  v.visit_newtype_struct d

/-- Modelled from the spec: serde's `Deserializer::visit_map` default
method (the serde crate is external) forwards to `visit` — this is the path
`Deserialize for ObjectId` and `Deserialize for OrderedDocument` take on a
`Decoder`. -/
def Decoder.visit_map_default (d : Decoder) (v : Visitor α) : Outcome α × Decoder :=
  Decoder.visit d v

/-- `Deserializer::visit` for `SeqDecoder` (the Sequence Cursor used as a
deserializer, reached for tuple-variant payloads): a zero-length sequence
invokes the unit-shape callback, otherwise the sequence-shape callback
receives the cursor itself. -/
def SeqDecoder.visit (s : SeqDecoder) (v : Visitor α) : Outcome α × SeqDecoder :=
  if s.len = 0 then (v.visit_unit, s) else v.visit_seq s

/-- `SeqVisitor::visit` for `SeqDecoder` (one `next_element` step), generic
over the element type's `Deserialize` impl, which is passed as the function
`deser` from the Value Cursor state to a result and final cursor state.
The source pops the iterator, decrements `len`, refills the Value Cursor's
slot and recursively deserializes; an exhausted iterator yields `none`. -/
def SeqDecoder.visitElement (s : SeqDecoder) (deser : Decoder → Outcome τ × Decoder) :
    Outcome (Option τ) × SeqDecoder :=
  match s.iter with
  | value :: rest =>
      let s' : SeqDecoder := ⟨⟨some value⟩, rest, s.len - 1⟩
      match deser s'.de with
      | (.ok t, de') => (.ok (some t), ⟨de', rest, s'.len⟩)
      | (.err e, de') => (.err e, ⟨de', rest, s'.len⟩)
      | (.panic m, de') => (.panic m, ⟨de', rest, s'.len⟩)
  | [] => (.ok none, s)

/-- `SeqVisitor::end` for `SeqDecoder` (`finish`): succeed when `len` is
zero, otherwise fail with `LengthMismatch len`. -/
def SeqDecoder.endSeq (s : SeqDecoder) : Outcome Unit :=
  if s.len = 0 then .ok () else .err (.LengthMismatch s.len)

/-- `SeqVisitor::size_hint` for `SeqDecoder`: exactly
`(len, Some len)`. -/
def SeqDecoder.size_hint (s : SeqDecoder) : Nat × Option Nat :=
  (s.len, some s.len)

/-- `k` consecutive successful `next_element` steps (each must yield a
decoded element); `none` when any step fails or reports end of sequence. -/
def SeqDecoder.consume (deser : Decoder → Outcome τ × Decoder) :
    Nat → SeqDecoder → Option SeqDecoder
  | 0, s => some s
  | k + 1, s =>
      match s.visitElement deser with
      | (.ok (some _), s') => SeqDecoder.consume deser k s'
      | _ => none

/-- `MapVisitor::visit_key` for `MapDecoder` (`next_key`), generic over the
key type's `Deserialize` impl `deser`.  The source pops the next pair,
decrements `len`, stashes the value in the one-slot buffer, refills the
Value Cursor's slot with the key as a `Bson::String` and deserializes it;
an `UnknownField` failure is swallowed into `Ok(None)`, any other error
propagates, and an exhausted iterator yields `Ok(None)`. -/
def MapDecoder.visit_key (m : MapDecoder) (deser : Decoder → Outcome τ × Decoder) :
    Outcome (Option τ) × MapDecoder :=
  match m.iter with
  | (key, value) :: rest =>
      let m' : MapDecoder := ⟨⟨some (.String key)⟩, rest, some value, m.len - 1⟩
      match deser m'.de with
      | (.ok t, de') => (.ok (some t), ⟨de', rest, m'.value, m'.len⟩)
      | (.err (.UnknownField _), de') => (.ok none, ⟨de', rest, m'.value, m'.len⟩)
      | (.err e, de') => (.err e, ⟨de', rest, m'.value, m'.len⟩)
      | (.panic msg, de') => (.panic msg, ⟨de', rest, m'.value, m'.len⟩)
  | [] => (.ok none, m)

/-- `MapVisitor::visit_value` for `MapDecoder` (`next_value`): take the
buffered value (`self.value.take().unwrap()` — a Rust panic when the buffer
is empty), refill the Value Cursor's slot with it and deserialize. -/
def MapDecoder.visit_value (m : MapDecoder) (deser : Decoder → Outcome τ × Decoder) :
    Outcome τ × MapDecoder :=
  match m.value with
  | none => (.panic ("called Option::unwrap on a None value"), m)
  | some value =>
      match deser ⟨some value⟩ with
      | (.ok t, de') => (.ok t, ⟨de', m.iter, none, m.len⟩)
      | (.err e, de') => (.err e, ⟨de', m.iter, none, m.len⟩)
      | (.panic msg, de') => (.panic msg, ⟨de', m.iter, none, m.len⟩)

/-- `MapVisitor::end` for `MapDecoder` (`finish`): always succeeds —
trailing unread entries are ignored. -/
def MapDecoder.endMap (_m : MapDecoder) : Outcome Unit :=
  .ok ()

/-- `MapVisitor::size_hint` for `MapDecoder`: exactly `(len, Some len)`. -/
def MapDecoder.size_hint (m : MapDecoder) : Nat × Option Nat :=
  (m.len, some m.len)

/-- The single shape request a `Deserialize` impl issues against the
synthetic `UnitDecoder` of `missing_field` (which implements only `visit`
and `visit_option`; serde's default methods for the remaining shape
requests forward to `visit`). -/
inductive ShapeRequest (α : Type) where
  | visit (v : Visitor α)
  | visit_option (v : Visitor α)

/-- The `UnitDecoder` local to `MapDecoder::missing_field`: `visit` answers
with the unit-shape callback and `visit_option` with the none callback. -/
def UnitDecoder.deserialize : ShapeRequest α → Outcome α
  | .visit v => v.visit_unit
  | .visit_option v => v.visit_none

/-- Modelled from the spec: serde's default `Visitor::visit_unit` for a
visitor of a non-unit, non-optional shape fails with `EndOfStream` ("field
genuinely required and missing"); the serde crate is external. -/
def defaultVisitUnit (α : Type) : Outcome α := .err .EndOfStream

/-- `MapVisitor::missing_field` for `MapDecoder`: ignore the field name and
reconstruct the value from the synthetic `UnitDecoder`; the map cursor
itself is untouched. -/
def MapDecoder.missing_field (m : MapDecoder) (_field : String)
    (req : ShapeRequest α) : Outcome α × MapDecoder :=
  (UnitDecoder.deserialize req, m)

/-- `VariantVisitor::visit_variant` for `VariantDecoder`: deserialize the
discriminant from a fresh `Decoder` over `self.variant.take().unwrap()`
(a Rust panic when already consumed). -/
def VariantDecoder.visit_variant (vd : VariantDecoder)
    (deser : Decoder → Outcome τ × Decoder) : Outcome τ × VariantDecoder :=
  match vd.variant with
  | none => (.panic ("called Option::unwrap on a None value"), vd)
  | some b => ((deser ⟨some b⟩).1, { vd with variant := none })

/-- `VariantVisitor::visit_unit` for `VariantDecoder`: deserialize unit from
a fresh `Decoder` over `self.val.take().unwrap()`. -/
def VariantDecoder.visit_unit (vd : VariantDecoder)
    (deser : Decoder → Outcome Unit × Decoder) : Outcome Unit × VariantDecoder :=
  match vd.val with
  | none => (.panic ("called Option::unwrap on a None value"), vd)
  | some b => ((deser ⟨some b⟩).1, { vd with val := none })

/-- `VariantVisitor::visit_newtype` for `VariantDecoder`: deserialize the
payload from a fresh `Decoder` over `self.val.take().unwrap()`. -/
def VariantDecoder.visit_newtype (vd : VariantDecoder)
    (deser : Decoder → Outcome τ × Decoder) : Outcome τ × VariantDecoder :=
  match vd.val with
  | none => (.panic ("called Option::unwrap on a None value"), vd)
  | some b => ((deser ⟨some b⟩).1, { vd with val := none })

/-- `VariantVisitor::visit_tuple` for `VariantDecoder`: the payload must be
an `Array` (else `syntax("expected a tuple")`); wrap it in a Sequence
Cursor borrowing `self.de` and run that cursor's `Deserializer::visit`. -/
def VariantDecoder.visit_tuple (vd : VariantDecoder) (_len : Nat)
    (v : Visitor α) : Outcome α × VariantDecoder :=
  match vd.val with
  | none => (.panic ("called Option::unwrap on a None value"), vd)
  | some (.Array fields) =>
      let (r, sd) := SeqDecoder.visit ⟨vd.de, fields, fields.length⟩ v
      (r, { vd with val := none, de := sd.de })
  | some _ => (.err (.SyntaxError ("expected a tuple")), { vd with val := none })

/-- `VariantVisitor::visit_struct` for `VariantDecoder`: the payload must be
a `Document` (else `syntax("expected a struct")`); wrap it in a Map Cursor
borrowing `self.de` and run that cursor's `Deserializer::visit`. -/
def VariantDecoder.visit_struct (vd : VariantDecoder)
    (v : Visitor α) : Outcome α × VariantDecoder :=
  match vd.val with
  | none => (.panic ("called Option::unwrap on a None value"), vd)
  | some (.Document fields) =>
      let md : MapDecoder := ⟨vd.de, fields, none, fields.length⟩
      let (r, md') := v.visit_map md
      (r, { vd with val := none, de := md'.de })
  | some _ => (.err (.SyntaxError ("expected a struct")), { vd with val := none })

/-- Modelled from the spec: serde's `Deserialize for String` (external
crate) — a visitor that accepts the string-shape callbacks and rejects
every other shape. -/
def stringVisitor : Visitor String where
  visit_bool := fun _ => .err (.SyntaxError ("invalid type"))
  visit_i32 := fun _ => .err (.SyntaxError ("invalid type"))
  visit_i64 := fun _ => .err (.SyntaxError ("invalid type"))
  visit_f64 := fun _ => .err (.SyntaxError ("invalid type"))
  visit_string := fun s => .ok s
  visit_unit := .err (.SyntaxError ("invalid type"))
  visit_none := .err (.SyntaxError ("invalid type"))
  visit_some := fun de => (.err (.SyntaxError ("invalid type")), de)
  visit_newtype_struct := fun de => (.err (.SyntaxError ("invalid type")), de)
  visit_seq := fun sd => (.err (.SyntaxError ("invalid type")), sd)
  visit_map := fun md => (.err (.SyntaxError ("invalid type")), md)

/-- `Deserialize::deserialize` for `String` on a `Decoder`:
`deserializer.visit(stringVisitor)`. -/
def deserializeString (d : Decoder) : Outcome String × Decoder :=
  Decoder.visit d stringVisitor

/-- Lexicographic order on character lists by code point. -/
def charListLt : List Char → List Char → Bool
  | [], [] => false
  | [], _ :: _ => true
  | _ :: _, [] => false
  | a :: as, b :: bs =>
      if a.toNat < b.toNat then true
      else if b.toNat < a.toNat then false
      else charListLt as bs

/-- Rust's `Ord` on `String` (byte-wise comparison of UTF-8 data, which
coincides with lexicographic code-point order). -/
def strLt (a b : String) : Bool := charListLt a.data b.data

/-- Insertion into a key-sorted association list: the semantics of
`BTreeMap::insert` followed by ordered iteration. -/
def insertSorted (k : String) (v : Bson) : List (String × Bson) → List (String × Bson)
  | [] => [(k, v)]
  | (k', v') :: rest =>
      if k = k' then (k, v) :: rest
      else if strLt k k' then (k, v) :: (k', v') :: rest
      else (k', v') :: insertSorted k v rest

/-- Modelled from the spec: serde's `de::impls::VecVisitor::visit_seq`
(external crate) — pull elements until the cursor reports end of sequence,
then call `finish`.  The `fuel` argument bounds the loop; with
`fuel > number of remaining elements` it matches the Rust `while let`. -/
def vecLoop (vdeser : Decoder → Outcome Bson × Decoder) :
    Nat → List Bson → SeqDecoder → Outcome (List Bson) × SeqDecoder
  | 0, _, sd => (.panic ("loop fuel exhausted"), sd)
  | fuel + 1, acc, sd =>
      match sd.visitElement vdeser with
      | (.ok (some v), sd') => vecLoop vdeser fuel (acc ++ [v]) sd'
      | (.ok none, sd') =>
          match sd'.endSeq with
          | .ok _ => (.ok acc, sd')
          | .err e => (.err e, sd')
          | .panic m => (.panic m, sd')
      | (.err e, sd') => (.err e, sd')
      | (.panic m, sd') => (.panic m, sd')

/-- Modelled from the spec: serde's `de::impls::BTreeMapVisitor::visit_map`
(external crate) — pull `(key, value)` pairs, inserting each into a
key-sorted map, until the cursor reports no more keys, then call `finish`.
The `fuel` argument bounds the loop as in `vecLoop`. -/
def btreeLoop (kdeser : Decoder → Outcome String × Decoder)
    (vdeser : Decoder → Outcome Bson × Decoder) :
    Nat → List (String × Bson) → MapDecoder →
    Outcome (List (String × Bson)) × MapDecoder
  | 0, _, md => (.panic ("loop fuel exhausted"), md)
  | fuel + 1, acc, md =>
      match md.visit_key kdeser with
      | (.ok (some k), md') =>
          match md'.visit_value vdeser with
          | (.ok v, md'') => btreeLoop kdeser vdeser fuel (insertSorted k v acc) md''
          | (.err e, md'') => (.err e, md'')
          | (.panic m, md'') => (.panic m, md'')
      | (.ok none, md') =>
          match md'.endMap with
          | .ok _ => (.ok acc, md')
          | .err e => (.err e, md')
          | .panic m => (.panic m, md')
      | (.err e, md') => (.err e, md')
      | (.panic m, md') => (.panic m, md')

/-- `BsonVisitor::visit_seq`, parametric in the element deserializer (the
source instantiates it with `Deserialize for Bson`): collect the elements
with `VecVisitor` and wrap them in `Bson::Array`. -/
def BsonVisitor.visit_seq_with (vdeser : Decoder → Outcome Bson × Decoder)
    (sd : SeqDecoder) : Outcome Bson × SeqDecoder :=
  match vecLoop vdeser (sd.iter.length + 1) [] sd with
  | (.ok values, sd') => (.ok (.Array values), sd')
  | (.err e, sd') => (.err e, sd')
  | (.panic m, sd') => (.panic m, sd')

/-- `BsonVisitor::visit_map`, parametric in the value deserializer (the
source instantiates it with `Deserialize for Bson`): collect the entries
into a key-sorted map with `BTreeMapVisitor` and pass the result through
`Bson::from_extended_document`. -/
def BsonVisitor.visit_map_with (vdeser : Decoder → Outcome Bson × Decoder)
    (md : MapDecoder) : Outcome Bson × MapDecoder :=
  match btreeLoop deserializeString vdeser (md.iter.length + 1) [] md with
  | (.ok values, md') => (.ok (Bson.from_extended_document values), md')
  | (.err e, md') => (.err e, md')
  | (.panic m, md') => (.panic m, md')

/-- `Deserialize for Bson` on a `Decoder`: `deserializer.visit(BsonVisitor)`,
with the recursion (through `visit_some`, sequence elements and map values)
bounded by `fuel`; any `fuel` larger than the depth of the pending tree
gives the Rust behaviour. -/
def deserializeBson : Nat → Decoder → Outcome Bson × Decoder
  | 0, d => (.panic ("recursion fuel exhausted"), d)
  | fuel + 1, d =>
      Decoder.visit d
        { visit_bool := fun b => .ok (.Boolean b)
          visit_i32 := fun n => .ok (.I32 n)
          visit_i64 := fun n => .ok (.I64 n)
          visit_f64 := fun bits => .ok (.FloatingPoint bits)
          visit_string := fun s => .ok (.String s)
          visit_unit := .ok .Null
          visit_none := .ok .Null
          visit_some := fun de => deserializeBson fuel de
          visit_newtype_struct := fun de => deserializeBson fuel de
          visit_seq := fun sd => BsonVisitor.visit_seq_with (deserializeBson fuel) sd
          visit_map := fun md => BsonVisitor.visit_map_with (deserializeBson fuel) md }

/-- `BsonVisitor` as a visitor record, its recursive callbacks running with
the given fuel. -/
def bsonVisitor (fuel : Nat) : Visitor Bson where
  visit_bool := fun b => .ok (.Boolean b)
  visit_i32 := fun n => .ok (.I32 n)
  visit_i64 := fun n => .ok (.I64 n)
  visit_f64 := fun bits => .ok (.FloatingPoint bits)
  visit_string := fun s => .ok (.String s)
  visit_unit := .ok .Null
  visit_none := .ok .Null
  visit_some := fun de => deserializeBson fuel de
  visit_newtype_struct := fun de => deserializeBson fuel de
  visit_seq := fun sd => BsonVisitor.visit_seq_with (deserializeBson fuel) sd
  visit_map := fun md => BsonVisitor.visit_map_with (deserializeBson fuel) md

/-- `Deserialize for ObjectId` on a `Decoder`:
`deserializer.visit_map(BsonVisitor)` (serde's default `visit_map` forwards
to `visit`), then the `and_then` arm keeps `Bson::ObjectId` and hits
`unimplemented!()` — a panic — on every other reconstructed value. -/
def deserializeObjectId (fuel : Nat) (d : Decoder) : Outcome String × Decoder :=
  match Decoder.visit_map_default d (bsonVisitor fuel) with
  | (.ok (.ObjectId oid), d') => (.ok oid, d')
  | (.ok _, d') => (.panic ("not implemented"), d')
  | (.err e, d') => (.err e, d')
  | (.panic m, d') => (.panic m, d')

/-- `Deserialize for OrderedDocument` on a `Decoder`: same shape as
`deserializeObjectId`, keeping `Bson::Document` and hitting
`unimplemented!()` otherwise. -/
def deserializeOrderedDocument (fuel : Nat) (d : Decoder) :
    Outcome OrderedDocument × Decoder :=
  match Decoder.visit_map_default d (bsonVisitor fuel) with
  | (.ok (.Document doc), d') => (.ok doc, d')
  | (.ok _, d') => (.panic ("not implemented"), d')
  | (.err e, d') => (.err e, d')
  | (.panic m, d') => (.panic m, d')

/-- A visitor whose callbacks return distinct markers, used to observe which
callback a dispatch invokes. -/
def probeVisitor : Visitor Nat where
  visit_bool := fun _ => .ok 10
  visit_i32 := fun _ => .ok 11
  visit_i64 := fun _ => .ok 12
  visit_f64 := fun _ => .ok 13
  visit_string := fun _ => .ok 14
  visit_unit := .ok 0
  visit_none := .ok 2
  visit_some := fun de => (.ok 3, de)
  visit_newtype_struct := fun de => (.ok 4, de)
  visit_seq := fun sd => (.ok 1, sd)
  visit_map := fun md => (.ok 5, md)

/-- An element/key deserializer that always succeeds with `Unit` and leaves
an emptied Value Cursor, standing for a target type whose element decodes
all succeed. -/
def unitOkDeser : Decoder → Outcome Unit × Decoder :=
  fun _ => (.ok (), ⟨none⟩)

/-- A key deserializer that always fails with `UnknownField`, standing for a
field-identifier type that recognises no key. -/
def unknownFieldDeser : Decoder → Outcome Unit × Decoder :=
  fun _ => (.err (.UnknownField ("b")), ⟨none⟩)

/-- An element deserializer that always fails with a syntax error. -/
def boomDeser : Decoder → Outcome Unit × Decoder :=
  fun _ => (.err (.SyntaxError ("boom")), ⟨none⟩)

/-- A value deserializer that returns the pending value unchanged and leaves
an emptied Value Cursor. -/
def idBsonDeser : Decoder → Outcome Bson × Decoder :=
  fun d => (.ok (d.value.getD .Null), ⟨none⟩)

/-- An enum visitor returning a marker, used to observe the Union Cursor a
dispatch constructs. -/
def probeEnumVisitor : EnumVisitor Nat where
  visit := fun vd => (.ok 7, vd)

/-- A visitor for a non-unit, non-optional target shape: every callback is
serde's default, in particular `visit_unit` is `defaultVisitUnit`
(`EndOfStream`). -/
def strictVisitor : Visitor Nat where
  visit_bool := fun _ => .err .EndOfStream
  visit_i32 := fun _ => .err .EndOfStream
  visit_i64 := fun _ => .err .EndOfStream
  visit_f64 := fun _ => .err .EndOfStream
  visit_string := fun _ => .err .EndOfStream
  visit_unit := defaultVisitUnit Nat
  visit_none := .err .EndOfStream
  visit_some := fun de => (.err .EndOfStream, de)
  visit_newtype_struct := fun de => (.err .EndOfStream, de)
  visit_seq := fun sd => (.err .EndOfStream, sd)
  visit_map := fun md => (.err .EndOfStream, md)

/-- Claim C1: when `MapDecoder::visit_key` pops an entry and the key decode
fails with `UnknownField`, the error is swallowed and `visit_key` returns
`Ok(None)` (ending key iteration); any other key-decode error propagates
unchanged. -/
theorem mapDecoder_visit_key_unknown_field_policy {τ : Type}
    (deser : Decoder → Outcome τ × Decoder) (m : MapDecoder)
    (k : String) (val : Bson) (rest : List (String × Bson))
    (hiter : m.iter = (k, val) :: rest) :
    (∀ name de', deser ⟨some (.String k)⟩ = (.err (.UnknownField name), de') →
        m.visit_key deser = (.ok none, ⟨de', rest, some val, m.len - 1⟩))
    ∧ (∀ e de', deser ⟨some (.String k)⟩ = (.err e, de') →
        (∀ name, e ≠ .UnknownField name) →
        m.visit_key deser = (.err e, ⟨de', rest, some val, m.len - 1⟩)) := by
  obtain ⟨de0, iter0, buf0, len0⟩ := m
  simp only at hiter
  subst hiter
  constructor
  · intro name de' h
    simp [MapDecoder.visit_key, h]
  · intro e de' h hne
    cases e with
    | UnknownField n => exact absurd rfl (hne n)
    | EndOfStream => simp [MapDecoder.visit_key, h]
    | LengthMismatch r => simp [MapDecoder.visit_key, h]
    | SyntaxError s => simp [MapDecoder.visit_key, h]

/-- Witness for C1: a two-entry document whose first key decodes to
`UnknownField` makes `visit_key` report no more keys. -/
theorem mapDecoder_visit_key_unknown_field_policy_witness :
    MapDecoder.visit_key ⟨⟨none⟩, [("b", Bson.I32 2), ("c", Bson.I32 3)], none, 2⟩
        unknownFieldDeser
      = (.ok none, ⟨⟨none⟩, [("c", Bson.I32 3)], some (Bson.I32 2), 1⟩) :=
  (mapDecoder_visit_key_unknown_field_policy unknownFieldDeser
      ⟨⟨none⟩, [("b", Bson.I32 2), ("c", Bson.I32 3)], none, 2⟩
      "b" (Bson.I32 2) [("c", Bson.I32 3)] rfl).1 "b" ⟨none⟩ rfl

/-- Claim C2 counterexample: at the root dispatch a zero-length `Array` is
handed to the sequence-shape callback (`visit_seq`, marker 1), not the
unit-shape callback (`visit_unit`, marker 0). -/
theorem decoder_visit_empty_array_counterexample :
    (Decoder.visit ⟨some (.Array [])⟩ probeVisitor).1 = .ok 1
    ∧ probeVisitor.visit_unit = .ok 0
    ∧ (Decoder.visit ⟨some (.Array [])⟩ probeVisitor).1 ≠ probeVisitor.visit_unit :=
  ⟨rfl, rfl, by decide⟩

/-- Claim C2 amended: `Decoder::visit` dispatches every `Array` — length
zero included — to `visit_seq` over a fresh Sequence Cursor; the
unit-for-empty substitution lives in `SeqDecoder`'s `Deserializer::visit`
(reached for tuple-variant payloads), which invokes `visit_unit` when `len`
is zero and `visit_seq` otherwise. -/
theorem empty_seq_unit_substitution {α : Type} (v : Visitor α) :
    (∀ elems : List Bson,
        Decoder.visit ⟨some (.Array elems)⟩ v
          = ((v.visit_seq ⟨⟨none⟩, elems, elems.length⟩).1,
             (v.visit_seq ⟨⟨none⟩, elems, elems.length⟩).2.de))
    ∧ (∀ s : SeqDecoder, s.len = 0 → SeqDecoder.visit s v = (v.visit_unit, s))
    ∧ (∀ s : SeqDecoder, s.len ≠ 0 → SeqDecoder.visit s v = v.visit_seq s) := by
  refine ⟨?_, ?_, ?_⟩
  · intro elems
    rcases h : v.visit_seq ⟨⟨none⟩, elems, elems.length⟩ with ⟨r, sd⟩
    simp [Decoder.visit, h]
  · intro s h
    simp [SeqDecoder.visit, h]
  · intro s h
    simp [SeqDecoder.visit, h]

/-- Witness for the amended C2: a zero-length Sequence Cursor used as a
deserializer answers with the unit-shape callback. -/
theorem empty_seq_unit_substitution_witness :
    SeqDecoder.visit ⟨⟨none⟩, [], 0⟩ probeVisitor = (probeVisitor.visit_unit, ⟨⟨none⟩, [], 0⟩) :=
  (empty_seq_unit_substitution probeVisitor).2.1 ⟨⟨none⟩, [], 0⟩ rfl

/-- Claim C3: the decoding entry points for `ObjectId` and
`OrderedDocument` reach `unimplemented!()` — a panic, not a structured
error — whenever the reconstructed value is not of the expected variant
(here: decoding from the value `Boolean(true)`). -/
theorem deserialize_unimplemented_panic :
    deserializeObjectId 1 ⟨some (.Boolean true)⟩ = (.panic ("not implemented"), ⟨none⟩)
    ∧ deserializeOrderedDocument 1 ⟨some (.Boolean true)⟩
        = (.panic ("not implemented"), ⟨none⟩) :=
  ⟨rfl, rfl⟩

/-- Claim C4: `Decoder::visit_enum` — empty slot is `EndOfStream`; a
non-Document pending value is `ExpectedEnum`; a zero-entry Document is
`ExpectedVariantName`; a Document with two or more entries is
`ExpectedSingleKeyMap`; exactly one entry builds the Union Cursor over that
entry and hands control to the enum visitor. -/
theorem decoder_visit_enum_cases {α : Type} (v : EnumVisitor α) (d : Decoder) :
    (d.value = none → Decoder.visit_enum d v = (.err .EndOfStream, d))
    ∧ (∀ b, d.value = some b → (∀ doc, b ≠ .Document doc) →
        Decoder.visit_enum d v = (.err ExpectedEnum, ⟨none⟩))
    ∧ (d.value = some (.Document []) →
        Decoder.visit_enum d v = (.err ExpectedVariantName, ⟨none⟩))
    ∧ (∀ p q rest, d.value = some (.Document (p :: q :: rest)) →
        Decoder.visit_enum d v = (.err ExpectedSingleKeyMap, ⟨none⟩))
    ∧ (∀ variant value, d.value = some (.Document [(variant, value)]) →
        Decoder.visit_enum d v
          = ((v.visit ⟨⟨none⟩, some value, some (.String variant)⟩).1,
             (v.visit ⟨⟨none⟩, some value, some (.String variant)⟩).2.de)) := by
  obtain ⟨dv⟩ := d
  refine ⟨?_, ?_, ?_, ?_, ?_⟩
  · intro h
    simp only at h
    subst h
    simp [Decoder.visit_enum]
  · intro b h hne
    simp only at h
    subst h
    cases b with
    | Document doc => exact absurd rfl (hne doc)
    | FloatingPoint bits => simp [Decoder.visit_enum]
    | String s => simp [Decoder.visit_enum]
    | Array elems => simp [Decoder.visit_enum]
    | Boolean bb => simp [Decoder.visit_enum]
    | Null => simp [Decoder.visit_enum]
    | I32 n => simp [Decoder.visit_enum]
    | I64 n => simp [Decoder.visit_enum]
    | ObjectId oid => simp [Decoder.visit_enum]
  · intro h
    simp only at h
    subst h
    simp [Decoder.visit_enum]
  · intro p q rest h
    simp only at h
    subst h
    simp [Decoder.visit_enum]
  · intro variant value h
    simp only at h
    subst h
    rcases hv : v.visit ⟨⟨none⟩, some value, some (.String variant)⟩ with ⟨r, vd⟩
    simp [Decoder.visit_enum, hv]

/-- Witness for C4: a zero-entry document under an enum-shape request fails
with `ExpectedVariantName`. -/
theorem decoder_visit_enum_cases_witness :
    Decoder.visit_enum ⟨some (.Document [])⟩ probeEnumVisitor
      = (.err ExpectedVariantName, ⟨none⟩) :=
  (decoder_visit_enum_cases probeEnumVisitor ⟨some (.Document [])⟩).2.2.1 rfl

/-- Claim C5 counterexample: the optional-shape dispatch on a pending
`Null` answers the none callback yet leaves the slot full — the pending
value is not consumed, so the slot is non-empty after a dispatch that used
it, and a second dispatch would read the same value again. -/
theorem visit_option_null_leaves_slot_full :
    Decoder.visit_option ⟨some .Null⟩ probeVisitor = (probeVisitor.visit_none, ⟨some .Null⟩)
    ∧ (Decoder.visit_option ⟨some Bson.Null⟩ probeVisitor).2.value = some Bson.Null
    ∧ (Decoder.visit_option ((Decoder.visit_option ⟨some Bson.Null⟩ probeVisitor).2)
        probeVisitor).1 = probeVisitor.visit_none :=
  ⟨rfl, rfl, rfl⟩

/-- Claim C5 amended: `visit` and `visit_enum` empty the slot on every
consumption (scalar branches return an emptied cursor; Sequence/Map/Union
cursors are built over an emptied cursor) and every dispatch against an
empty slot fails with `EndOfStream`; `visit_option`, however, does not
itself empty the slot: its none branch returns with the `Null` still
pending, and its some branch hands the still-full cursor to the recursive
reconstruct, which performs the consumption. -/
theorem pending_slot_move_discipline {α : Type} (v : Visitor α) (ev : EnumVisitor α) :
    (Decoder.visit ⟨none⟩ v = (.err .EndOfStream, ⟨none⟩))
    ∧ (Decoder.visit_option ⟨none⟩ v = (.err .EndOfStream, ⟨none⟩))
    ∧ (Decoder.visit_enum ⟨none⟩ ev = (.err .EndOfStream, ⟨none⟩))
    ∧ (∀ bits, Decoder.visit ⟨some (.FloatingPoint bits)⟩ v = (v.visit_f64 bits, ⟨none⟩))
    ∧ (∀ s, Decoder.visit ⟨some (.String s)⟩ v = (v.visit_string s, ⟨none⟩))
    ∧ (∀ b, Decoder.visit ⟨some (.Boolean b)⟩ v = (v.visit_bool b, ⟨none⟩))
    ∧ (Decoder.visit ⟨some .Null⟩ v = (v.visit_unit, ⟨none⟩))
    ∧ (∀ n, Decoder.visit ⟨some (.I32 n)⟩ v = (v.visit_i32 n, ⟨none⟩))
    ∧ (∀ n, Decoder.visit ⟨some (.I64 n)⟩ v = (v.visit_i64 n, ⟨none⟩))
    ∧ (∀ elems, (Decoder.visit ⟨some (.Array elems)⟩ v)
        = ((v.visit_seq ⟨⟨none⟩, elems, elems.length⟩).1,
           (v.visit_seq ⟨⟨none⟩, elems, elems.length⟩).2.de))
    ∧ (∀ doc, (Decoder.visit ⟨some (.Document doc)⟩ v)
        = ((v.visit_map ⟨⟨none⟩, doc, none, doc.length⟩).1,
           (v.visit_map ⟨⟨none⟩, doc, none, doc.length⟩).2.de))
    ∧ (∀ oid, (Decoder.visit ⟨some (.ObjectId oid)⟩ v)
        = ((v.visit_map ⟨⟨none⟩, [("$oid", .String oid)], none, 1⟩).1,
           (v.visit_map ⟨⟨none⟩, [("$oid", .String oid)], none, 1⟩).2.de))
    ∧ (∀ variant value, Decoder.visit_enum ⟨some (.Document [(variant, value)])⟩ ev
        = ((ev.visit ⟨⟨none⟩, some value, some (.String variant)⟩).1,
           (ev.visit ⟨⟨none⟩, some value, some (.String variant)⟩).2.de))
    ∧ (Decoder.visit_option ⟨some .Null⟩ v = (v.visit_none, ⟨some .Null⟩))
    ∧ (∀ b, b ≠ .Null → Decoder.visit_option ⟨some b⟩ v = v.visit_some ⟨some b⟩) := by
  refine ⟨rfl, rfl, rfl, fun bits => rfl, fun s => rfl, fun b => rfl, rfl,
      fun n => rfl, fun n => rfl, ?_, ?_, ?_, ?_, rfl, ?_⟩
  · intro elems
    rcases h : v.visit_seq ⟨⟨none⟩, elems, elems.length⟩ with ⟨r, sd⟩
    simp [Decoder.visit, h]
  · intro doc
    rcases h : v.visit_map ⟨⟨none⟩, doc, none, doc.length⟩ with ⟨r, md⟩
    simp [Decoder.visit, h]
  · intro oid
    rcases h : v.visit_map ⟨⟨none⟩, [("$oid", .String oid)], none, 1⟩ with ⟨r, md⟩
    simp [Decoder.visit, Bson.to_extended_document, h]
  · intro variant value
    rcases h : ev.visit ⟨⟨none⟩, some value, some (.String variant)⟩ with ⟨r, vd⟩
    simp [Decoder.visit_enum, h]
  · intro b hb
    cases b with
    | Null => exact absurd rfl hb
    | FloatingPoint bits => rfl
    | String s => rfl
    | Array elems => rfl
    | Document doc => rfl
    | Boolean bb => rfl
    | I32 n => rfl
    | I64 n => rfl
    | ObjectId oid => rfl

/-- Witness for the amended C5: a non-`Null` pending value is handed,
still in the slot, to the some callback. -/
theorem pending_slot_move_discipline_witness :
    Decoder.visit_option ⟨some (.Boolean true)⟩ probeVisitor
      = probeVisitor.visit_some ⟨some (.Boolean true)⟩ :=
  (pending_slot_move_discipline probeVisitor
      probeEnumVisitor).2.2.2.2.2.2.2.2.2.2.2.2.2.2 (.Boolean true)
    (fun h => Bson.noConfusion h)

/-- Helper for C6: `k` successful element decodes from a Sequence Cursor
whose counter matches its iterator leave a cursor whose counter has dropped
by exactly `k` and still matches its iterator. -/
theorem seqDecoder_consume_spec {τ : Type} (deser : Decoder → Outcome τ × Decoder)
    (hd : ∀ d, ∃ t de', deser d = (.ok t, de')) :
    ∀ (k : Nat) (s : SeqDecoder), s.len = s.iter.length → k ≤ s.len →
      ∃ s', SeqDecoder.consume deser k s = some s'
        ∧ s'.len = s.len - k ∧ s'.len = s'.iter.length := by
  intro k
  induction k with
  | zero =>
      intro s hinv _
      exact ⟨s, rfl, by omega, hinv⟩
  | succ k ih =>
      intro s hinv hk
      obtain ⟨de0, iter0, len0⟩ := s
      simp only at hinv hk
      cases iter0 with
      | nil => simp at hinv; omega
      | cons b rest =>
          have hinv' : len0 = rest.length + 1 := by simpa using hinv
          obtain ⟨t, de', hde⟩ := hd ⟨some b⟩
          have hstep : SeqDecoder.visitElement ⟨de0, b :: rest, len0⟩ deser
              = (.ok (some t), ⟨de', rest, len0 - 1⟩) := by
            simp [SeqDecoder.visitElement, hde]
          have hrec : SeqDecoder.consume deser (k + 1) ⟨de0, b :: rest, len0⟩
              = SeqDecoder.consume deser k ⟨de', rest, len0 - 1⟩ := by
            simp [SeqDecoder.consume, hstep]
          obtain ⟨s', h1, h2, h3⟩ :=
            ih ⟨de', rest, len0 - 1⟩ (by show len0 - 1 = rest.length; omega)
              (by show k ≤ len0 - 1; omega)
          refine ⟨s', hrec.trans h1, ?_, h3⟩
          have h2' : s'.len = (len0 - 1) - k := h2
          show s'.len = len0 - (k + 1)
          omega

/-- Claim C6: over an Array of `n` elements, consuming exactly `n` elements
and then calling `finish` succeeds, while consuming `k < n` elements and
then calling `finish` fails with `LengthMismatch (n - k)` (for any element
type whose decodes succeed). -/
theorem seqDecoder_finish_length_mismatch {τ : Type}
    (deser : Decoder → Outcome τ × Decoder)
    (hd : ∀ d, ∃ t de', deser d = (.ok t, de'))
    (l : List Bson) (k : Nat) (hk : k ≤ l.length) :
    ∃ s', SeqDecoder.consume deser k ⟨⟨none⟩, l, l.length⟩ = some s'
      ∧ SeqDecoder.endSeq s'
          = (if k = l.length then .ok () else .err (.LengthMismatch (l.length - k))) := by
  obtain ⟨s', h1, h2, _⟩ :=
    seqDecoder_consume_spec deser hd k ⟨⟨none⟩, l, l.length⟩ rfl hk
  refine ⟨s', h1, ?_⟩
  have h2' : s'.len = l.length - k := h2
  by_cases hkl : k = l.length
  · have hz : s'.len = 0 := by omega
    simp [SeqDecoder.endSeq, hz, hkl]
  · have hnz : s'.len ≠ 0 := by omega
    simp [SeqDecoder.endSeq, hnz, hkl, h2']
    omega

/-- Witness for C6: of a two-element array, consuming one element and then
finishing fails with `LengthMismatch 1`. -/
theorem seqDecoder_finish_length_mismatch_witness :
    ∃ s', SeqDecoder.consume unitOkDeser 1 ⟨⟨none⟩, [Bson.Null, Bson.Boolean true], 2⟩ = some s'
      ∧ SeqDecoder.endSeq s' = .err (.LengthMismatch 1) := by
  have h := seqDecoder_finish_length_mismatch unitOkDeser
      (fun d => ⟨(), ⟨none⟩, rfl⟩) [Bson.Null, Bson.Boolean true] 1 (by decide)
  simpa using h

/-- Claim C7: `MapDecoder::missing_field` reconstructs the value from the
synthetic unit source: an optional-shape request yields the none outcome,
a unit-shape request yields the unit value, and a request from any other
shape (whose visitor carries serde's default `visit_unit`) fails with
`EndOfStream`; the map cursor itself is untouched. -/
theorem mapDecoder_missing_field_unit_source {α : Type}
    (m : MapDecoder) (field : String) (v : Visitor α) :
    (m.missing_field field (.visit_option v) = (v.visit_none, m))
    ∧ (m.missing_field field (.visit v) = (v.visit_unit, m))
    ∧ (v.visit_unit = defaultVisitUnit α →
        m.missing_field field (.visit v) = (.err .EndOfStream, m)) := by
  refine ⟨rfl, rfl, ?_⟩
  intro h
  simp [MapDecoder.missing_field, UnitDecoder.deserialize, h, defaultVisitUnit]

/-- Witness for C7: a strictly-required (non-unit, non-optional) shape
request against the synthetic unit source fails with `EndOfStream`. -/
theorem mapDecoder_missing_field_unit_source_witness :
    MapDecoder.missing_field ⟨⟨none⟩, [], none, 0⟩ "x" (.visit strictVisitor)
      = (.err .EndOfStream, ⟨⟨none⟩, [], none, 0⟩) :=
  (mapDecoder_missing_field_unit_source ⟨⟨none⟩, [], none, 0⟩ "x" strictVisitor).2.2 rfl

/-- Claim C8: `Decoder::visit_option` — a pending `Null` yields the none
outcome (slot untouched), any non-`Null` pending value is handed, still in
the slot, to the some callback for the recursive reconstruct (the value is
reused once, not consumed twice), and an empty slot is `EndOfStream`. -/
theorem decoder_visit_option_cases {α : Type} (v : Visitor α) (d : Decoder) :
    (d.value = some .Null → Decoder.visit_option d v = (v.visit_none, d))
    ∧ (∀ b, d.value = some b → b ≠ .Null → Decoder.visit_option d v = v.visit_some d)
    ∧ (d.value = none → Decoder.visit_option d v = (.err .EndOfStream, d)) := by
  obtain ⟨dv⟩ := d
  refine ⟨?_, ?_, ?_⟩
  · intro h
    simp only at h
    subst h
    rfl
  · intro b h hb
    simp only at h
    subst h
    cases b with
    | Null => exact absurd rfl hb
    | FloatingPoint bits => rfl
    | String s => rfl
    | Array elems => rfl
    | Document doc => rfl
    | Boolean bb => rfl
    | I32 n => rfl
    | I64 n => rfl
    | ObjectId oid => rfl
  · intro h
    simp only at h
    subst h
    rfl

/-- Witness for C8: a pending `Boolean` under an optional-shape request is
handed to the some callback with the slot still full. -/
theorem decoder_visit_option_cases_witness :
    Decoder.visit_option ⟨some (.I32 5)⟩ probeVisitor
      = probeVisitor.visit_some ⟨some (.I32 5)⟩ :=
  (decoder_visit_option_cases probeVisitor ⟨some (.I32 5)⟩).2.1 (.I32 5) rfl
    (fun h => Bson.noConfusion h)

/-- Claim C9 counterexample: `len` is decremented by a `visit` call whose
element decode fails — from a one-element cursor, a failing decode leaves
`len = 0` although no element decode succeeded, refuting "decremented
exactly once per successful element decode and at no other time". -/
theorem seq_len_decrement_on_failed_decode :
    SeqDecoder.visitElement ⟨⟨none⟩, [Bson.Null], 1⟩ boomDeser
      = (.err (.SyntaxError ("boom")), ⟨⟨none⟩, [], 0⟩) :=
  rfl

/-- Claim C9 amended: `len` equals the number of elements not yet popped
from the iterator at all times, and `size_hint` returns exactly
`(len, Some len)`; `len` is decremented exactly once per popped element —
per `visit` call that finds a next element — whether or not that element's
decode succeeds (the decrement precedes the recursive decode). -/
theorem seqDecoder_len_invariant {τ : Type}
    (deser : Decoder → Outcome τ × Decoder) (s : SeqDecoder) :
    (SeqDecoder.size_hint s = (s.len, some s.len))
    ∧ (s.len = s.iter.length →
        ∀ r s', s.visitElement deser = (r, s') → s'.len = s'.iter.length)
    ∧ (∀ b rest, s.iter = b :: rest →
        (s.visitElement deser).2.len = s.len - 1
        ∧ (s.visitElement deser).2.iter = rest)
    ∧ (s.iter = [] → s.visitElement deser = (.ok none, s)) := by
  obtain ⟨de0, iter0, len0⟩ := s
  refine ⟨rfl, ?_, ?_, ?_⟩
  · intro hinv r s' h
    cases iter0 with
    | nil =>
        simp [SeqDecoder.visitElement] at h
        have : s' = ⟨de0, [], len0⟩ := h.2.symm
        subst this
        exact hinv
    | cons b rest =>
        simp at hinv
        rcases hde : deser ⟨some b⟩ with ⟨t, de'⟩
        cases t with
        | ok val =>
            simp [SeqDecoder.visitElement, hde] at h
            rw [← h.2]
            show len0 - 1 = rest.length
            omega
        | err e =>
            simp [SeqDecoder.visitElement, hde] at h
            rw [← h.2]
            show len0 - 1 = rest.length
            omega
        | panic msg =>
            simp [SeqDecoder.visitElement, hde] at h
            rw [← h.2]
            show len0 - 1 = rest.length
            omega
  · intro b rest hiter
    simp only at hiter
    subst hiter
    rcases hde : deser ⟨some b⟩ with ⟨t, de'⟩
    cases t with
    | ok val => simp [SeqDecoder.visitElement, hde]
    | err e => simp [SeqDecoder.visitElement, hde]
    | panic msg => simp [SeqDecoder.visitElement, hde]
  · intro hiter
    simp only at hiter
    subst hiter
    rfl

/-- Witness for the amended C9: popping the single element of a one-element
cursor decrements `len` to zero and leaves an empty iterator, even though
the element decode fails. -/
theorem seqDecoder_len_invariant_witness :
    (SeqDecoder.visitElement ⟨⟨none⟩, [Bson.Null], 1⟩ boomDeser).2.len = 0
    ∧ (SeqDecoder.visitElement ⟨⟨none⟩, [Bson.Null], 1⟩ boomDeser).2.iter = [] :=
  (seqDecoder_len_invariant boomDeser ⟨⟨none⟩, [Bson.Null], 1⟩).2.2.1 Bson.Null [] rfl

/-- Helper for C10: the `BTreeMapVisitor` loop over a Map Cursor whose
counter matches its iterator collects every `(key, value)` pair — keys
decoded through `Deserialize for String`, values through a value
deserializer that succeeds — into a key-sorted accumulator. -/
theorem btreeLoop_collect (vdeser : Decoder → Outcome Bson × Decoder) (g : Bson → Bson)
    (hv : ∀ b, vdeser ⟨some b⟩ = (.ok (g b), ⟨none⟩)) :
    ∀ (doc acc : List (String × Bson)) (d0 : Decoder) (v0 : Option Bson),
    (btreeLoop deserializeString vdeser (doc.length + 1) acc ⟨d0, doc, v0, doc.length⟩).1
      = .ok (doc.foldl (fun a p => insertSorted p.1 (g p.2) a) acc) := by
  intro doc
  induction doc with
  | nil =>
      intro acc d0 v0
      simp [btreeLoop, MapDecoder.visit_key, MapDecoder.endMap]
  | cons p rest ih =>
      intro acc d0 v0
      obtain ⟨k, bv⟩ := p
      have hkey : MapDecoder.visit_key
            ⟨d0, (k, bv) :: rest, v0, ((k, bv) :: rest).length⟩ deserializeString
          = (.ok (some k), ⟨⟨none⟩, rest, some bv, rest.length⟩) := by
        simp [MapDecoder.visit_key, deserializeString, Decoder.visit, stringVisitor]
      have hval : MapDecoder.visit_value ⟨⟨none⟩, rest, some bv, rest.length⟩ vdeser
          = (.ok (g bv), ⟨⟨none⟩, rest, none, rest.length⟩) := by
        simp [MapDecoder.visit_value, hv]
      simp only [List.length_cons] at hkey ⊢
      simp only [btreeLoop, hkey, hval]
      rw [List.foldl_cons]
      exact ih (insertSorted k (g bv) acc) ⟨none⟩ none

/-- Claim C10: `BsonVisitor::visit_map` over a Map Cursor collects the
entries into a key-sorted map (`BTreeMap`) — so the source document's
insertion order is not preserved — and passes the result through
`Bson::from_extended_document`, which reinterprets extended-type encodings
(such as the `$oid` document) as the corresponding extended type. -/
theorem bsonVisitor_visit_map_sorted_and_extended
    (vdeser : Decoder → Outcome Bson × Decoder) (g : Bson → Bson)
    (hv : ∀ b, vdeser ⟨some b⟩ = (.ok (g b), ⟨none⟩))
    (doc : List (String × Bson)) (d0 : Decoder) (v0 : Option Bson) :
    (BsonVisitor.visit_map_with vdeser ⟨d0, doc, v0, doc.length⟩).1
      = .ok (Bson.from_extended_document
          (doc.foldl (fun a p => insertSorted p.1 (g p.2) a) [])) := by
  have h := btreeLoop_collect vdeser g hv doc [] d0 v0
  rcases hb : btreeLoop deserializeString vdeser (doc.length + 1) []
      ⟨d0, doc, v0, doc.length⟩ with ⟨r, md'⟩
  rw [hb] at h
  simp only at h
  subst h
  simp [BsonVisitor.visit_map_with, hb]

/-- Witness for C10: the two-entry document with keys `b` then `a` comes
back key-sorted (`a` before `b`), and the `$oid` single-entry document is
reinterpreted as an `ObjectId`. -/
theorem bsonVisitor_visit_map_sorted_and_extended_witness :
    (BsonVisitor.visit_map_with idBsonDeser
        ⟨⟨none⟩, [("b", Bson.I32 2), ("a", Bson.I32 1)], none, 2⟩).1
      = .ok (.Document [("a", Bson.I32 1), ("b", Bson.I32 2)])
    ∧ (BsonVisitor.visit_map_with idBsonDeser
        ⟨⟨none⟩, [("$oid", Bson.String "507f1f77bcf86cd799439011")], none, 1⟩).1
      = .ok (.ObjectId "507f1f77bcf86cd799439011") := by
  constructor
  · have h := bsonVisitor_visit_map_sorted_and_extended idBsonDeser id
      (fun b => rfl) [("b", Bson.I32 2), ("a", Bson.I32 1)] ⟨none⟩ none
    exact h.trans (by rfl)
  · have h := bsonVisitor_visit_map_sorted_and_extended idBsonDeser id
      (fun b => rfl) [("$oid", Bson.String "507f1f77bcf86cd799439011")] ⟨none⟩ none
    exact h.trans (by rfl)
